import Mathlib

/-!
Verification of the Scholar-Fi ROFL monitoring service
(`src/contracts/rofl/src/main.rs`) against its specification.

The Rust program is a single periodic loop: each tick it fetches mock vault
balances, checks a mock Aave APY, logs an alert when the APY is below 2.0,
computes a derived daily growth per vault and pushes it to a mock sink.
We embed the data model and the cycle body shallowly: the three fallible
calls are abstracted by a `CycleEnv` record of their outcomes, and the
cycle body is a pure function producing the list of observable events,
translated branch by branch from `RoflMonitor::run`.  Floating point
(`f64`) arithmetic on the APY is modelled by exact rational arithmetic
with the final `as u128` cast modelled as floor-then-clamp-at-zero.
-/

/-- `struct VaultBalance`: one balance record fetched from the vault
contract.  `u128` fields are modelled as `ℕ` (the mock values are far
below `2^128`, which we prove where the spec demands it). -/
structure VaultBalance where
  child_address : String
  vault_amount : ℕ
  spending_amount : ℕ
  is_verified : Bool
deriving DecidableEq, Repr

/-- `struct MonitoringConfig`: the five configuration fields. -/
structure MonitoringConfig where
  celo_rpc : String
  oasis_rpc : String
  scholar_fi_vault_address : String
  child_data_store_address : String
  check_interval_seconds : ℕ
deriving DecidableEq, Repr

/-- The process environment: a partial map from variable names to values
(`none` models an absent variable, as `std::env::var` returning `Err`). -/
def Env : Type := String → Option String

/-- Reads a nonempty all-ASCII-digit character list as a number (the
digit part of Rust's unsigned integer parsing). -/
def parseDigits (acc : ℕ) : List Char → Option ℕ
  | [] => some acc
  | c :: rest =>
    if c.isDigit then parseDigits (acc * 10 + (c.toNat - '0'.toNat)) rest
    else none

/-- Rust `str::parse::<u64>`: an optional leading `+`, then a nonempty
string of ASCII digits, rejected on overflow past `2^64 - 1`. -/
def parse_u64 (s : String) : Option ℕ :=
  let chars :=
    match s.data with
    | '+' :: rest => rest
    | cs => cs
  match chars with
  | [] => none
  | _ =>
    match parseDigits 0 chars with
    | some n => if n < 2 ^ 64 then some n else none
    | none => none

/-- `impl Default for MonitoringConfig`: each field reads its environment
variable and falls back to the hardcoded default when the variable is
absent (for the interval, also when it fails to parse as `u64`). -/
def MonitoringConfig.default (env : Env) : MonitoringConfig where
  celo_rpc := (env "CELO_RPC_URL").getD "https://celo-sepolia-rpc.publicnode.com"
  oasis_rpc := (env "SAPPHIRE_TESTNET_RPC").getD "https://testnet.sapphire.oasis.io"
  scholar_fi_vault_address := (env "SCHOLAR_FI_VAULT").getD "0x0000000000000000000000000000000000000000"
  child_data_store_address := (env "CHILD_DATA_STORE").getD "0x0000000000000000000000000000000000000000"
  check_interval_seconds := ((env "CHECK_INTERVAL").bind parse_u64).getD 3600

/-- `RoflMonitor`: holds the configuration and an HTTP client.  The
client is never consulted by the mock code, so it carries no data. -/
structure RoflMonitor where
  config : MonitoringConfig
  client : Unit
deriving DecidableEq, Repr

/-- `RoflMonitor::new`. -/
def RoflMonitor.new (config : MonitoringConfig) : RoflMonitor :=
  { config := config, client := () }

/-- `RoflMonitor::fetch_vault_balances`: the mock always returns `Ok` of
the fixed single-element list. -/
def fetch_vault_balances : Except String (List VaultBalance) :=
  .ok [{ child_address := "0x1234567890abcdef1234567890abcdef12345678"
         vault_amount := 1000000000000000000
         spending_amount := 500000000000000000
         is_verified := false }]

/-- `RoflMonitor::check_aave_apy`: the mock always returns `Ok(3.5)`. -/
def check_aave_apy : Except String ℚ :=
  .ok (3.5 : ℚ)

/-- `RoflMonitor::update_oasis_growth`: the mock only logs (reading
`config.child_data_store_address`) and always returns `Ok(())`. -/
def update_oasis_growth (_config : MonitoringConfig) (_child_address : String)
    (_vault_growth : ℕ) : Except String Unit :=
  .ok ()

/-- The growth computation in the loop body:
`(vault.vault_amount as f64 * apy / 100.0 / 365.0) as u128`, with the
`f64` arithmetic taken exact over `ℚ` and the `as u128` cast modelled as
floor, clamped at zero (Rust float-to-int casts saturate; `Int.toNat`
sends every negative floor to `0`). -/
def simulated_growth (vault_amount : ℕ) (apy : ℚ) : ℕ :=
  (⌊(vault_amount : ℚ) * apy / 100 / 365⌋).toNat

/-- The spec's formula for derived growth, written from its words:
`P * R / 100 / 365` with a single consistent rounding (floor of the
exact quotient), clamped to the unsigned result type. -/
def derived_growth_spec (P : ℕ) (R : ℚ) : ℕ :=
  (⌊(P : ℚ) * R / (100 * 365)⌋).toNat

/-- The outcomes of the three fallible calls during one cycle.  The mock
implementations are one fixed instance (`actualEnv`); quantifying over a
`CycleEnv` expresses the error-handling contracts of `run` for arbitrary
behaviour of the collaborators. -/
structure CycleEnv where
  balances : Except String (List VaultBalance)
  apy : Except String ℚ
  push : String → ℕ → Except String Unit

/-- Observable events of one monitoring cycle, in the order the loop body
of `RoflMonitor::run` produces them. -/
inductive Ev where
  | fetchBalancesCall
  | fetchBalancesFailed
  | checkApyCall
  | checkApyFailed
  | alert
  | healthy
  | pushCall (child : String) (growth : ℕ)
  | pushFailed (child : String)
  | cycleComplete
deriving DecidableEq, Repr

/-- The per-vault update loop (step 4 of the cycle): for each vault, in
list order, compute the simulated growth, call `update_oasis_growth`,
and on failure log the error and continue with the next vault. -/
def pushEvents (push : String → ℕ → Except String Unit) (apy : ℚ) :
    List VaultBalance → List Ev
  | [] => []
  | vault :: rest =>
    let g := simulated_growth vault.vault_amount apy
    (Ev.pushCall vault.child_address g ::
      match push vault.child_address g with
      | .ok _ => []
      | .error _ => [Ev.pushFailed vault.child_address]) ++
    pushEvents push apy rest

/-- One iteration of the `loop` in `RoflMonitor::run`, translated branch
by branch: fetch balances; on success check the APY; on success log the
alert condition and run the per-vault update loop; every error branch
only logs, and the cycle always ends with its completion log line. -/
def runCycle (env : CycleEnv) : List Ev :=
  (Ev.fetchBalancesCall ::
    match env.balances with
    | .error _ => [Ev.fetchBalancesFailed]
    | .ok vaults =>
      Ev.checkApyCall ::
      match env.apy with
      | .error _ => [Ev.checkApyFailed]
      | .ok apy =>
        (if apy < 2 then Ev.alert else Ev.healthy) :: pushEvents env.push apy vaults)
  ++ [Ev.cycleComplete]

/-- The infinite `loop` of `run`, observed for finitely many ticks: one
`CycleEnv` per tick, cycles strictly sequential, no state carried across
cycles. -/
def runLoop : List CycleEnv → List Ev
  | [] => []
  | env :: rest => runCycle env ++ runLoop rest

/-- The `CycleEnv` realised by the actual mock implementations. -/
def actualEnv (config : MonitoringConfig) : CycleEnv where
  balances := fetch_vault_balances
  apy := check_aave_apy
  push := update_oasis_growth config

/-- `fetch_vault_balances` with the monitor state threaded explicitly
(`&self` in the source: the method can read but not replace the
monitor). -/
def fetch_vault_balances_st (env : CycleEnv) (m : RoflMonitor) :
    Except String (List VaultBalance) × RoflMonitor :=
  (env.balances, m)

/-- `check_aave_apy` with the monitor state threaded explicitly. -/
def check_aave_apy_st (env : CycleEnv) (m : RoflMonitor) :
    Except String ℚ × RoflMonitor :=
  (env.apy, m)

/-- `update_oasis_growth` with the monitor state threaded explicitly. -/
def update_oasis_growth_st (env : CycleEnv) (child : String) (g : ℕ)
    (m : RoflMonitor) : Except String Unit × RoflMonitor :=
  (env.push child g, m)

/-- The per-vault update loop with the monitor state threaded. -/
def pushEventsSt (env : CycleEnv) (apy : ℚ) :
    List VaultBalance → RoflMonitor → List Ev × RoflMonitor
  | [], m => ([], m)
  | vault :: rest, m =>
    let g := simulated_growth vault.vault_amount apy
    let r := update_oasis_growth_st env vault.child_address g m
    let tail := pushEventsSt env apy rest r.2
    ((Ev.pushCall vault.child_address g ::
        match r.1 with
        | .ok _ => []
        | .error _ => [Ev.pushFailed vault.child_address]) ++ tail.1,
     tail.2)

/-- One cycle with the monitor state threaded through every sub-call. -/
def runCycleSt (env : CycleEnv) (m : RoflMonitor) : List Ev × RoflMonitor :=
  let rb := fetch_vault_balances_st env m
  match rb.1 with
  | .error _ => ([Ev.fetchBalancesCall, Ev.fetchBalancesFailed, Ev.cycleComplete], rb.2)
  | .ok vaults =>
    let ra := check_aave_apy_st env rb.2
    match ra.1 with
    | .error _ =>
      ([Ev.fetchBalancesCall, Ev.checkApyCall, Ev.checkApyFailed, Ev.cycleComplete], ra.2)
    | .ok apy =>
      let t := pushEventsSt env apy vaults ra.2
      (Ev.fetchBalancesCall :: Ev.checkApyCall ::
        (if apy < 2 then Ev.alert else Ev.healthy) :: (t.1 ++ [Ev.cycleComplete]),
       t.2)

/-- The loop with the monitor state threaded. -/
def runLoopSt : List CycleEnv → RoflMonitor → List Ev × RoflMonitor
  | [], m => ([], m)
  | env :: rest, m =>
    let c := runCycleSt env m
    let t := runLoopSt rest c.2
    (c.1 ++ t.1, t.2)

/-- `tokio::time::interval(Duration::from_secs(secs))`: the timer used by
`run`.  Its documented contract asserts a non-zero period, so a zero
period panics at construction; the panic is modelled as `none`. -/
def time_interval (secs : ℕ) : Option ℕ :=
  if secs = 0 then none else some secs

/-- The timer construction at the top of `RoflMonitor::run`: everything
after it runs only if the timer was constructed. -/
def run_timer (config : MonitoringConfig) : Option ℕ :=
  time_interval config.check_interval_seconds

/-- Extracts the arguments of a push attempt from an event, used to state
that a cycle pushes exactly once per fetched record, in record order. -/
def pushCallArgs : Ev → Option (String × ℕ)
  | .pushCall a g => some (a, g)
  | _ => none

/-- A cycle environment whose balance fetch fails (for instantiating the
error-handling theorems). -/
def envFetchFail : CycleEnv where
  balances := .error "source unavailable"
  apy := .ok (3.5 : ℚ)
  push := fun _ _ => .ok ()

/-- A concrete balance record for instantiations. -/
def vaultA : VaultBalance :=
  { child_address := "0xaaa", vault_amount := 1000, spending_amount := 0,
    is_verified := true }

/-- A second concrete balance record for instantiations. -/
def vaultB : VaultBalance :=
  { child_address := "0xbbb", vault_amount := 2000, spending_amount := 0,
    is_verified := false }

/-- A cycle environment where the push for `vaultA` fails while the push
for `vaultB` succeeds. -/
def envPushFail : CycleEnv where
  balances := .ok [vaultA, vaultB]
  apy := .ok (3.5 : ℚ)
  push := fun a _ => if a = "0xaaa" then .error "sink write failed" else .ok ()

/-- A cycle environment whose fetched APY is below the `2.0` threshold. -/
def envLowApy : CycleEnv where
  balances := .ok []
  apy := .ok (1 : ℚ)
  push := fun _ _ => .ok ()

/-- A fully successful cycle environment over two records. -/
def envTwoVaults : CycleEnv where
  balances := .ok [vaultA, vaultB]
  apy := .ok (1 : ℚ)
  push := fun _ _ => .ok ()

/-- A process environment that sets only `CHECK_INTERVAL=42`. -/
def envInterval42 : Env :=
  fun k => if k = "CHECK_INTERVAL" then some "42" else none

/-- A process environment that sets only `CHECK_INTERVAL=0`. -/
def envInterval0 : Env :=
  fun k => if k = "CHECK_INTERVAL" then some "0" else none

/-! ## Helper lemmas about the per-vault update loop -/

theorem pushCall_mem_pushEvents (p : String → ℕ → Except String Unit) (apy : ℚ) :
    ∀ (vs : List VaultBalance) (v : VaultBalance), v ∈ vs →
      Ev.pushCall v.child_address (simulated_growth v.vault_amount apy) ∈
        pushEvents p apy vs := by
  intro vs
  induction vs with
  | nil => intro v hv; cases hv
  | cons vault rest ih =>
    intro v hv
    rcases List.mem_cons.mp hv with h | h
    · subst h
      simp [pushEvents]
    · simp only [pushEvents]
      exact List.mem_append_right _ (ih v h)

theorem mem_pushEvents_shape (p : String → ℕ → Except String Unit) (apy : ℚ) :
    ∀ (vs : List VaultBalance), ∀ e ∈ pushEvents p apy vs,
      (∃ a g, e = Ev.pushCall a g) ∨ ∃ a, e = Ev.pushFailed a := by
  intro vs
  induction vs with
  | nil => intro e he; simp [pushEvents] at he
  | cons vault rest ih =>
    intro e he
    cases hp : p vault.child_address (simulated_growth vault.vault_amount apy) with
    | ok u =>
      simp only [pushEvents, hp, List.cons_append, List.nil_append, List.mem_cons] at he
      rcases he with h | h
      · exact Or.inl ⟨_, _, h⟩
      · exact ih e h
    | error s =>
      simp only [pushEvents, hp, List.cons_append, List.singleton_append,
        List.mem_cons] at he
      rcases he with h | h | h
      · exact Or.inl ⟨_, _, h⟩
      · exact Or.inr ⟨_, h⟩
      · exact ih e h

theorem pushEvents_filterMap (p : String → ℕ → Except String Unit) (apy : ℚ) :
    ∀ vs : List VaultBalance,
      (pushEvents p apy vs).filterMap pushCallArgs =
        vs.map (fun v => (v.child_address, simulated_growth v.vault_amount apy)) := by
  intro vs
  induction vs with
  | nil => simp [pushEvents]
  | cons vault rest ih =>
    cases hp : p vault.child_address (simulated_growth vault.vault_amount apy) with
    | ok u => simp [pushEvents, hp, pushCallArgs, ih]
    | error s => simp [pushEvents, hp, pushCallArgs, ih]

/-! ## Claim theorems -/

/-- C1 (counterexample): at the spec's literal case
`P = 1_000_000_000_000_000_000`, `R = 3.5`, the derived growth the code
pushes is `95_890_410_958_904`, which is more than ten times the spec's
claimed value `9_589_041_095_890`: the spec's literal is not even
approximately attained. -/
theorem C1_counterexample :
    simulated_growth 1000000000000000000 (3.5 : ℚ) = 95890410958904 ∧
    9589041095890 * 10 ≤ simulated_growth 1000000000000000000 (3.5 : ℚ) ∧
    simulated_growth 1000000000000000000 (3.5 : ℚ) ≠ 9589041095890 := by
  have h : simulated_growth 1000000000000000000 (3.5 : ℚ) = 95890410958904 := by
    have hf : ⌊(1000000000000000000 : ℚ) * (3.5 : ℚ) / 100 / 365⌋ =
        (95890410958904 : ℤ) := by norm_num
    simp [simulated_growth, hf]
  refine ⟨h, ?_, ?_⟩ <;> rw [h] <;> norm_num

/-- C1 (amended): for every rate `R` and principal `P` the derived
growth pushed equals `P * R / 100 / 365` rounded consistently (floor of
the exact quotient, clamped at zero); at the literal case
`P = 1_000_000_000_000_000_000`, `R = 3.5` the derived value is
`95_890_410_958_904` (the spec's `9_589_041_095_890` drops the last
digit). -/
theorem C1_growth_formula :
    (∀ (P : ℕ) (R : ℚ), simulated_growth P R = derived_growth_spec P R) ∧
    simulated_growth 1000000000000000000 (3.5 : ℚ) = 95890410958904 := by
  constructor
  · intro P R
    simp [simulated_growth, derived_growth_spec, div_div]
  · have hf : ⌊(1000000000000000000 : ℚ) * (3.5 : ℚ) / 100 / 365⌋ =
        (95890410958904 : ℤ) := by norm_num
    simp [simulated_growth, hf]

/-- C6: the mock `fetch_vault_balances` always returns `Ok` of the fixed
single-element list of balance records; the record carries the account
identifier string, a principal and a secondary amount both within the
unsigned 128-bit range, and the verification flag. -/
theorem C6_fetch_balances_fixed_mock :
    ∃ v : VaultBalance,
      fetch_vault_balances = Except.ok [v] ∧
      v.child_address = "0x1234567890abcdef1234567890abcdef12345678" ∧
      v.vault_amount = 1000000000000000000 ∧
      v.spending_amount = 500000000000000000 ∧
      v.is_verified = false ∧
      v.vault_amount < 2 ^ 128 ∧
      v.spending_amount < 2 ^ 128 := by
  refine ⟨_, rfl, rfl, rfl, rfl, rfl, ?_, ?_⟩ <;> norm_num

/-- C9: all three mock calls always succeed (`check_aave_apy` returning
exactly `3.5`), so none of the three error branches of the run loop is
taken in the cycle the mocks realise. -/
theorem C9_mocks_never_fail :
    (∃ vs, fetch_vault_balances = Except.ok vs) ∧
    check_aave_apy = Except.ok (3.5 : ℚ) ∧
    (∀ (c : MonitoringConfig) (a : String) (g : ℕ),
      update_oasis_growth c a g = Except.ok ()) ∧
    ∀ c : MonitoringConfig,
      Ev.fetchBalancesFailed ∉ runCycle (actualEnv c) ∧
      Ev.checkApyFailed ∉ runCycle (actualEnv c) ∧
      ∀ a, Ev.pushFailed a ∉ runCycle (actualEnv c) := by
  have h2 : ¬ ((3.5 : ℚ) < 2) := by norm_num
  refine ⟨⟨_, rfl⟩, rfl, fun _ _ _ => rfl, fun c => ?_⟩
  have htrace : runCycle (actualEnv c) =
      [Ev.fetchBalancesCall, Ev.checkApyCall, Ev.healthy,
       Ev.pushCall "0x1234567890abcdef1234567890abcdef12345678"
         (simulated_growth 1000000000000000000 (3.5 : ℚ)),
       Ev.cycleComplete] := by
    simp [runCycle, actualEnv, fetch_vault_balances, check_aave_apy,
      update_oasis_growth, pushEvents, h2]
  refine ⟨?_, ?_, ?_⟩
  · rw [htrace]; simp
  · rw [htrace]; simp
  · intro a; rw [htrace]; simp

/-- C2: whenever the balance fetch fails, the cycle makes no APY check
and no push, still runs to completion, and the loop goes on to the next
cycle. -/
theorem C2_fetch_failure_short_circuits :
    ∀ (env : CycleEnv) (e : String) (rest : List CycleEnv),
      env.balances = Except.error e →
      Ev.checkApyCall ∉ runCycle env ∧
      (∀ a g, Ev.pushCall a g ∉ runCycle env) ∧
      (runCycle env).getLast? = some Ev.cycleComplete ∧
      runLoop (env :: rest) = runCycle env ++ runLoop rest := by
  intro env e rest h
  have htrace : runCycle env =
      [Ev.fetchBalancesCall, Ev.fetchBalancesFailed, Ev.cycleComplete] := by
    simp [runCycle, h]
  refine ⟨?_, ?_, ?_, ?_⟩
  · rw [htrace]; simp
  · intro a g; rw [htrace]; simp
  · rw [htrace]; rfl
  · simp [runLoop]

/-- C2 witness: the fetch-failure environment realises the contract. -/
theorem C2_witness :
    Ev.checkApyCall ∉ runCycle envFetchFail ∧
    Ev.pushCall "0x1234567890abcdef1234567890abcdef12345678" 0 ∉
      runCycle envFetchFail ∧
    (runCycle envFetchFail).getLast? = some Ev.cycleComplete ∧
    runLoop [envFetchFail] = runCycle envFetchFail ++ runLoop [] := by
  obtain ⟨h1, h2, h3, h4⟩ :=
    C2_fetch_failure_short_circuits envFetchFail "source unavailable" [] rfl
  exact ⟨h1, h2 _ 0, h3, h4⟩

/-- C3: in a cycle that fetched its records and its rate, a push is
attempted for every record of the list, whatever the push outcomes. -/
theorem C3_push_failure_does_not_abort :
    ∀ (env : CycleEnv) (vaults : List VaultBalance) (apy : ℚ),
      env.balances = Except.ok vaults → env.apy = Except.ok apy →
      ∀ v ∈ vaults,
        Ev.pushCall v.child_address (simulated_growth v.vault_amount apy) ∈
          runCycle env := by
  intro env vaults apy hb ha v hv
  simp only [runCycle, hb, ha]
  refine List.mem_append_left _ ?_
  refine List.mem_cons_of_mem _ (List.mem_cons_of_mem _ (List.mem_cons_of_mem _ ?_))
  exact pushCall_mem_pushEvents env.push apy vaults v hv

/-- C3 witness: with the push for `vaultA` failing, the push for
`vaultB` is still attempted in the same cycle. -/
theorem C3_witness :
    Ev.pushCall vaultB.child_address
        (simulated_growth vaultB.vault_amount (3.5 : ℚ)) ∈
      runCycle envPushFail ∧
    Ev.pushFailed vaultA.child_address ∈ runCycle envPushFail := by
  constructor
  · exact C3_push_failure_does_not_abort envPushFail [vaultA, vaultB] (3.5 : ℚ)
      rfl rfl vaultB (by simp)
  · have h2 : ¬ ((3.5 : ℚ) < 2) := by norm_num
    simp [runCycle, envPushFail, pushEvents, h2, vaultA, vaultB]

/-- C4: in a cycle that fetched its records and its rate, the alert is
logged exactly when the rate is strictly below `2.0`; moreover the trace
splits around the single alert-or-healthy log line, so the condition
contributes nothing but that line (no corrective action). -/
theorem C4_alert_iff_low_apy :
    ∀ (env : CycleEnv) (vaults : List VaultBalance) (apy : ℚ),
      env.balances = Except.ok vaults → env.apy = Except.ok apy →
      ((Ev.alert ∈ runCycle env) ↔ apy < 2) ∧
      ∃ pre post,
        runCycle env = pre ++ (if apy < 2 then [Ev.alert] else [Ev.healthy]) ++ post ∧
        (∀ e ∈ pre, e ≠ Ev.alert ∧ e ≠ Ev.healthy) ∧
        (∀ e ∈ post, e ≠ Ev.alert ∧ e ≠ Ev.healthy) := by
  intro env vaults apy hb ha
  have hpushA : Ev.alert ∉ pushEvents env.push apy vaults := by
    intro hm
    rcases mem_pushEvents_shape env.push apy vaults _ hm with ⟨a, g, h⟩ | ⟨a, h⟩ <;>
      cases h
  have htrace : runCycle env =
      [Ev.fetchBalancesCall, Ev.checkApyCall] ++
        (if apy < 2 then [Ev.alert] else [Ev.healthy]) ++
        (pushEvents env.push apy vaults ++ [Ev.cycleComplete]) := by
    by_cases h : apy < 2 <;> simp [runCycle, hb, ha, h]
  constructor
  · constructor
    · intro hmem
      by_contra h
      rw [htrace] at hmem
      simp [h] at hmem
      exact hpushA hmem
    · intro h
      rw [htrace]
      simp [h]
  · refine ⟨[Ev.fetchBalancesCall, Ev.checkApyCall],
      pushEvents env.push apy vaults ++ [Ev.cycleComplete], htrace, ?_, ?_⟩
    · intro e he
      simp at he
      rcases he with rfl | rfl <;> exact ⟨by simp, by simp⟩
    · intro e he
      simp at he
      rcases he with h | rfl
      · rcases mem_pushEvents_shape env.push apy vaults _ h with ⟨a, g, rfl⟩ | ⟨a, rfl⟩ <;>
          exact ⟨by simp, by simp⟩
      · exact ⟨by simp, by simp⟩

/-- C4 witness: a fetched rate of `1.0` (below threshold) raises the
alert, matching the threshold comparison. -/
theorem C4_witness :
    (Ev.alert ∈ runCycle envLowApy) ↔ (1 : ℚ) < 2 :=
  (C4_alert_iff_low_apy envLowApy [] (1 : ℚ) rfl rfl).1

/-- C5: every configuration field takes its hardcoded default exactly
when its environment variable is absent (for the interval: absent or not
parsing as `u64`), and takes the environment's value otherwise; the
interval default is 3600 seconds. -/
theorem C5_config_defaults :
    ∀ env : Env,
      ((env "CELO_RPC_URL" = none →
        (MonitoringConfig.default env).celo_rpc =
          "https://celo-sepolia-rpc.publicnode.com") ∧
       ∀ s, env "CELO_RPC_URL" = some s →
        (MonitoringConfig.default env).celo_rpc = s) ∧
      ((env "SAPPHIRE_TESTNET_RPC" = none →
        (MonitoringConfig.default env).oasis_rpc =
          "https://testnet.sapphire.oasis.io") ∧
       ∀ s, env "SAPPHIRE_TESTNET_RPC" = some s →
        (MonitoringConfig.default env).oasis_rpc = s) ∧
      ((env "SCHOLAR_FI_VAULT" = none →
        (MonitoringConfig.default env).scholar_fi_vault_address =
          "0x0000000000000000000000000000000000000000") ∧
       ∀ s, env "SCHOLAR_FI_VAULT" = some s →
        (MonitoringConfig.default env).scholar_fi_vault_address = s) ∧
      ((env "CHILD_DATA_STORE" = none →
        (MonitoringConfig.default env).child_data_store_address =
          "0x0000000000000000000000000000000000000000") ∧
       ∀ s, env "CHILD_DATA_STORE" = some s →
        (MonitoringConfig.default env).child_data_store_address = s) ∧
      (((env "CHECK_INTERVAL").bind parse_u64 = none →
        (MonitoringConfig.default env).check_interval_seconds = 3600) ∧
       ∀ n, (env "CHECK_INTERVAL").bind parse_u64 = some n →
        (MonitoringConfig.default env).check_interval_seconds = n) := by
  intro env
  refine ⟨⟨?_, ?_⟩, ⟨?_, ?_⟩, ⟨?_, ?_⟩, ⟨?_, ?_⟩, ?_, ?_⟩ <;>
    first
      | (intro h; simp [MonitoringConfig.default, h])
      | (intro s h; simp [MonitoringConfig.default, h])

/-- C5 witness: with only `CHECK_INTERVAL=42` set, the interval takes
the environment value and the Celo endpoint takes its default. -/
theorem C5_witness :
    (MonitoringConfig.default envInterval42).check_interval_seconds = 42 ∧
    (MonitoringConfig.default envInterval42).celo_rpc =
      "https://celo-sepolia-rpc.publicnode.com" :=
  ⟨(C5_config_defaults envInterval42).2.2.2.2.2 42 (by decide),
   (C5_config_defaults envInterval42).1.1 (by decide)⟩

/-- C7: every cycle logs its start first, completes last regardless of
failures, runs fetch, rate check, alert check and the per-record pushes
in that order when the fetches succeed, pushes exactly once per record
in record order with the derived growth, and the loop then goes on to
the next cycle. -/
theorem C7_cycle_order :
    ∀ (env : CycleEnv) (rest : List CycleEnv),
      (runCycle env).head? = some Ev.fetchBalancesCall ∧
      (runCycle env).getLast? = some Ev.cycleComplete ∧
      (∀ vaults apy, env.balances = Except.ok vaults → env.apy = Except.ok apy →
        runCycle env =
          Ev.fetchBalancesCall :: Ev.checkApyCall ::
            (if apy < 2 then Ev.alert else Ev.healthy) ::
            (pushEvents env.push apy vaults ++ [Ev.cycleComplete]) ∧
        (runCycle env).filterMap pushCallArgs =
          vaults.map (fun v => (v.child_address, simulated_growth v.vault_amount apy))) ∧
      runLoop (env :: rest) = runCycle env ++ runLoop rest := by
  intro env rest
  refine ⟨by simp [runCycle], ?_, ?_, by simp [runLoop]⟩
  · rcases hb : env.balances with e | vaults
    · rw [show runCycle env =
          [Ev.fetchBalancesCall, Ev.fetchBalancesFailed] ++ [Ev.cycleComplete] from
            by simp [runCycle, hb]]
      exact List.getLast?_concat _
    · rcases ha : env.apy with e | apy
      · rw [show runCycle env =
            [Ev.fetchBalancesCall, Ev.checkApyCall, Ev.checkApyFailed] ++
              [Ev.cycleComplete] from by simp [runCycle, hb, ha]]
        exact List.getLast?_concat _
      · rw [show runCycle env =
            (Ev.fetchBalancesCall :: Ev.checkApyCall ::
              (if apy < 2 then Ev.alert else Ev.healthy) ::
              pushEvents env.push apy vaults) ++ [Ev.cycleComplete] from
            by simp [runCycle, hb, ha]]
        exact List.getLast?_concat _
  · intro vaults apy hb ha
    constructor
    · simp [runCycle, hb, ha]
    · have hfm := pushEvents_filterMap env.push apy vaults
      by_cases h : apy < 2 <;>
        simp [runCycle, hb, ha, h, pushCallArgs, hfm]

/-- C7 witness: the two-record environment runs in order and pushes once
per record. -/
theorem C7_witness :
    (runCycle envTwoVaults).head? = some Ev.fetchBalancesCall ∧
    (runCycle envTwoVaults).getLast? = some Ev.cycleComplete ∧
    (runCycle envTwoVaults).filterMap pushCallArgs =
      [vaultA, vaultB].map
        (fun v => (v.child_address, simulated_growth v.vault_amount (1 : ℚ))) ∧
    runLoop [envTwoVaults] = runCycle envTwoVaults ++ runLoop [] := by
  obtain ⟨h1, h2, h3, h4⟩ := C7_cycle_order envTwoVaults []
  exact ⟨h1, h2, (h3 [vaultA, vaultB] (1 : ℚ) rfl rfl).2, h4⟩

/-! ## Helper lemmas for the state-threaded loop -/

theorem pushEventsSt_spec (env : CycleEnv) (apy : ℚ) :
    ∀ (vs : List VaultBalance) (m : RoflMonitor),
      pushEventsSt env apy vs m = (pushEvents env.push apy vs, m) := by
  intro vs
  induction vs with
  | nil => intro m; rfl
  | cons vault rest ih =>
    intro m
    cases hp : env.push vault.child_address (simulated_growth vault.vault_amount apy) with
    | ok u => simp [pushEventsSt, pushEvents, update_oasis_growth_st, hp, ih]
    | error s => simp [pushEventsSt, pushEvents, update_oasis_growth_st, hp, ih]

theorem runCycleSt_spec (env : CycleEnv) (m : RoflMonitor) :
    runCycleSt env m = (runCycle env, m) := by
  rcases hb : env.balances with e | vaults
  · simp [runCycleSt, fetch_vault_balances_st, hb, runCycle]
  · rcases ha : env.apy with e | apy
    · simp [runCycleSt, fetch_vault_balances_st, check_aave_apy_st, hb, ha, runCycle]
    · simp [runCycleSt, fetch_vault_balances_st, check_aave_apy_st, hb, ha,
        runCycle, pushEventsSt_spec]

theorem runLoopSt_spec :
    ∀ (envs : List CycleEnv) (m : RoflMonitor),
      runLoopSt envs m = (runLoop envs, m) := by
  intro envs
  induction envs with
  | nil => intro m; rfl
  | cons env rest ih =>
    intro m
    simp [runLoopSt, runLoop, runCycleSt_spec, ih]

/-- C8: the configuration is constructed once from the environment at
startup, and the loop — with the monitor state threaded explicitly
through every sub-call — returns the monitor, hence its configuration,
unchanged after any number of cycles; the produced events do not depend
on the monitor state. -/
theorem C8_config_loaded_once_immutable :
    ∀ (envs : List CycleEnv) (m : RoflMonitor) (e : Env),
      (runLoopSt envs m).2 = m ∧
      (runLoopSt envs m).1 = runLoop envs ∧
      (runLoopSt envs (RoflMonitor.new (MonitoringConfig.default e))).2.config =
        MonitoringConfig.default e := by
  intro envs m e
  refine ⟨?_, ?_, ?_⟩ <;> simp [runLoopSt_spec, RoflMonitor.new]

/-- C10: a `CHECK_INTERVAL` that parses to `0` makes `run` construct its
timer with a zero period, which panics (modelled as `none`); `run`
proceeds past the timer construction exactly when the configured
interval is strictly positive. -/
theorem C10_zero_interval_no_timer :
    (∀ (e : Env) (s : String),
      e "CHECK_INTERVAL" = some s → parse_u64 s = some 0 →
      run_timer (MonitoringConfig.default e) = none) ∧
    ∀ c : MonitoringConfig,
      (∃ t, run_timer c = some t) ↔ 0 < c.check_interval_seconds := by
  constructor
  · intro e s hs hp
    simp [run_timer, time_interval, MonitoringConfig.default, hs, hp]
  · intro c
    constructor
    · rintro ⟨t, ht⟩
      by_cases h : c.check_interval_seconds = 0
      · simp [run_timer, time_interval, h] at ht
      · omega
    · intro h
      refine ⟨c.check_interval_seconds, ?_⟩
      simp [run_timer, time_interval]
      omega

/-- C10 witness: with `CHECK_INTERVAL=0`, the timer construction
panics. -/
theorem C10_witness :
    run_timer (MonitoringConfig.default envInterval0) = none :=
  C10_zero_interval_no_timer.1 envInterval0 "0" (by decide) (by decide)
